import Mathlib

/-!
Verification of `start_ml.py` (`test_ml_stack`), an environment-verifier
script that sequentially imports ten Python libraries in four commented
groups, printing a success line after each group, a ready banner plus two
hints on full success, and catching `ImportError` to print one failure line.

The script is embedded shallowly: a run environment assigns to every module
name the outcome of `import name` (success, an `ImportError` with a message,
or an exception of any other class with a message).  The body of the `try`
block is a literal list of statements (`import` and `print` calls, in source
order); a small interpreter executes them, recording the printed lines, the
attempted module loads, and the first exception raised.  `test_ml_stack` wraps the
body in the `except ImportError as e` handler of the source.
-/

namespace StartML

/-- Outcome of executing a single Python `import name` statement in a given
environment: success, an exception that is an `ImportError` (including
`ModuleNotFoundError`) carrying `str(e)`, or an exception of any other class. -/
inductive ImportOutcome where
  | ok : ImportOutcome
  | importError (msg : String) : ImportOutcome
  | otherError (msg : String) : ImportOutcome
deriving DecidableEq, Repr

/-- A run environment: what each `import` of a module name does. -/
def Env : Type := String → ImportOutcome

/-- An exception escaping a statement: either an `ImportError` or not. -/
inductive Exc where
  | importError (msg : String) : Exc
  | otherError (msg : String) : Exc
deriving DecidableEq, Repr

/-- The two statement forms occurring in the `try` block of `test_ml_stack`. -/
inductive Stmt where
  | imp (name : String) : Stmt
  | print (line : String) : Stmt
deriving DecidableEq, Repr

/-- The body of the `try` block of `test_ml_stack`, statement by statement in
source order (lines 10-32 of `start_ml.py`). -/
def tryBody : List Stmt :=
  [Stmt.imp "pandas", Stmt.imp "numpy", Stmt.imp "sklearn", Stmt.imp "duckdb",
   Stmt.print "✅ Core data science stack: OK",
   Stmt.imp "pymysql", Stmt.imp "psycopg2",
   Stmt.print "✅ Database connectors: OK",
   Stmt.imp "torch", Stmt.imp "transformers",
   Stmt.print "✅ ML frameworks: OK",
   Stmt.imp "pytesseract", Stmt.imp "cv2",
   Stmt.print "✅ OCR tools: OK",
   Stmt.print "\n🚀 ML/AI environment is ready!",
   Stmt.print "Run \x27jupyter\x27 to start Jupyter Lab",
   Stmt.print "Run \x27streamlit run app.py\x27 for Streamlit apps"]

/-- The ten module names imported by `test_ml_stack`, in source order. -/
def capabilities : List String :=
  ["pandas", "numpy", "sklearn", "duckdb", "pymysql", "psycopg2",
   "torch", "transformers", "pytesseract", "cv2"]

/-- The four group-success lines, in source order. -/
def groupSuccessLines : List String :=
  ["✅ Core data science stack: OK", "✅ Database connectors: OK",
   "✅ ML frameworks: OK", "✅ OCR tools: OK"]

/-- The ready banner and the two hint lines printed when every import succeeds. -/
def readyLines : List String :=
  ["\n🚀 ML/AI environment is ready!",
   "Run \x27jupyter\x27 to start Jupyter Lab",
   "Run \x27streamlit run app.py\x27 for Streamlit apps"]

/-- Trace of executing a statement list: lines printed to stdout, imports
attempted (in order), and the exception that aborted execution, if any. -/
structure Trace where
  out : List String
  attempted : List String
  exc : Option Exc
deriving DecidableEq, Repr

/-- The exception raised by an import outcome, if any. -/
def excOf : ImportOutcome → Option Exc
  | ImportOutcome.ok => none
  | ImportOutcome.importError m => some (Exc.importError m)
  | ImportOutcome.otherError m => some (Exc.otherError m)

/-- Execute a list of statements in order, stopping at the first import that
raises; `print` appends its argument to stdout. -/
def runStmts (env : Env) : List Stmt → Trace
  | [] => ⟨[], [], none⟩
  | Stmt.print s :: rest =>
      ⟨s :: (runStmts env rest).out, (runStmts env rest).attempted,
        (runStmts env rest).exc⟩
  | Stmt.imp n :: rest =>
      match env n with
      | ImportOutcome.ok =>
          ⟨(runStmts env rest).out, n :: (runStmts env rest).attempted,
            (runStmts env rest).exc⟩
      | ImportOutcome.importError m => ⟨[], [n], some (Exc.importError m)⟩
      | ImportOutcome.otherError m => ⟨[], [n], some (Exc.otherError m)⟩

/-- Result of one call of `test_ml_stack`: lines printed, imports attempted,
and the exception propagating uncaught to the caller, if any. -/
structure RunResult where
  out : List String
  attempted : List String
  raised : Option Exc
deriving DecidableEq, Repr

/-- The failure line the `except ImportError as e` handler prints. -/
def failLine (m : String) : String := "❌ Missing dependency: " ++ m

/-- The whole routine: run the `try` body; an `ImportError` is caught and one
failure line is printed; any other exception propagates to the caller. -/
def test_ml_stack (env : Env) : RunResult :=
  match (runStmts env tryBody).exc with
  | none => ⟨(runStmts env tryBody).out, (runStmts env tryBody).attempted, none⟩
  | some (Exc.importError m) =>
      ⟨(runStmts env tryBody).out ++ [failLine m],
        (runStmts env tryBody).attempted, none⟩
  | some (Exc.otherError m) =>
      ⟨(runStmts env tryBody).out, (runStmts env tryBody).attempted,
        some (Exc.otherError m)⟩

/-- The capability at position `i` of the import sequence. -/
def capAt (i : Nat) : String := capabilities.getD i ""

/-- The group (0-3) that the capability at position `i` belongs to. -/
def groupOf (i : Nat) : Nat :=
  if i < 4 then 0 else if i < 6 then 1 else if i < 8 then 2 else 3

/-- Whether a line is a failure line (first character `❌`); the source prints
`❌` only in the handler's failure line. -/
def startsCross (l : String) : Bool := l.data.head? == some '❌'

/-- Whether a line is a group-success line (first character `✅`). -/
def startsCheck (l : String) : Bool := l.data.head? == some '✅'

/-- The names a statement list imports, in order. -/
def importsOf : List Stmt → List String
  | [] => []
  | Stmt.imp n :: rest => n :: importsOf rest
  | Stmt.print _ :: rest => importsOf rest

/-- The four capability groups of the script, as delimited by its comments:
data-science stack, database connectors, ML frameworks, OCR tools. -/
def groupMembers : List (List String) :=
  [["pandas", "numpy", "sklearn", "duckdb"],
   ["pymysql", "psycopg2"],
   ["torch", "transformers"],
   ["pytesseract", "cv2"]]

/-- An environment in which every import succeeds. -/
def allOkEnv : Env := fun _ => ImportOutcome.ok

/-- An environment in which only the deep-learning framework is missing. -/
def torchMissingEnv : Env := fun c =>
  if c = "torch" then ImportOutcome.importError "No module named \x27torch\x27"
  else ImportOutcome.ok

/-- An environment in which only the tabular-data library is missing. -/
def pandasMissingEnv : Env := fun c =>
  if c = "pandas" then ImportOutcome.importError "No module named \x27pandas\x27"
  else ImportOutcome.ok

/-- An environment in which every import raises a non-`ImportError` exception. -/
def crashEnv : Env := fun _ => ImportOutcome.otherError "ValueError: boom"

/-- An environment in which the deep-learning framework is installed but its
own import raises a non-`ImportError` exception. -/
def torchBrokenEnv : Env := fun c =>
  if c = "torch" then ImportOutcome.otherError "ValueError: unsupported configuration"
  else ImportOutcome.ok

/-- An environment in which an unrelated, unprobed module is broken and all
ten probed capabilities load. -/
def flaskBrokenEnv : Env := fun c =>
  if c = "flask" then ImportOutcome.otherError "ValueError: boom"
  else ImportOutcome.ok

/-- An environment in which the computer-vision library is present but its
load fails with an `ImportError` whose message does not mention the module
name, as when a shared library it needs is absent. -/
def cv2BrokenEnv : Env := fun c =>
  if c = "cv2" then
    ImportOutcome.importError
      "libGL.so.1: cannot open shared object file: No such file or directory"
  else ImportOutcome.ok

/-- An environment in which the PostgreSQL client is present but its load
fails with an `ImportError` whose message does not mention the module name. -/
def psycopgBrokenEnv : Env := fun c =>
  if c = "psycopg2" then
    ImportOutcome.importError
      "libpq.so.5: cannot open shared object file: No such file or directory"
  else ImportOutcome.ok

theorem data_append (s t : String) : (s ++ t).data = s.data ++ t.data := by
  cases s; cases t; rfl

theorem startsCross_failLine (m : String) : startsCross (failLine m) = true := by
  simp [startsCross, failLine, data_append]

theorem startsCheck_failLine (m : String) : startsCheck (failLine m) = false := by
  simp [startsCheck, failLine, data_append]

theorem ne_failLine_of_headCheck (l : String) (h : startsCross l = false) :
    ∀ m, l ≠ failLine m := by
  intro m hl
  rw [hl, startsCross_failLine] at h
  cases h

/-- Whatever name the exception message mentions, the failure line printed by
the handler mentions it too, since the line is the fixed tag followed by the
message. -/
theorem infix_failLine {name m : String} (h : name.data <:+: m.data) :
    name.data <:+: (failLine m).data := by
  rcases h with ⟨s, t, hst⟩
  refine ⟨("❌ Missing dependency: ").data ++ s, t, ?_⟩
  rw [failLine, data_append, ← hst]
  simp [List.append_assoc]

/-- If every one of the ten imports succeeds, the `try` body prints the four
group lines then the ready lines, attempts all ten imports, and raises nothing. -/
theorem run_allOk (env : Env) (h : ∀ c ∈ capabilities, env c = ImportOutcome.ok) :
    runStmts env tryBody = ⟨groupSuccessLines ++ readyLines, capabilities, none⟩ := by
  have h0 : env "pandas" = ImportOutcome.ok := h "pandas" (by simp [capabilities])
  have h1 : env "numpy" = ImportOutcome.ok := h "numpy" (by simp [capabilities])
  have h2 : env "sklearn" = ImportOutcome.ok := h "sklearn" (by simp [capabilities])
  have h3 : env "duckdb" = ImportOutcome.ok := h "duckdb" (by simp [capabilities])
  have h4 : env "pymysql" = ImportOutcome.ok := h "pymysql" (by simp [capabilities])
  have h5 : env "psycopg2" = ImportOutcome.ok := h "psycopg2" (by simp [capabilities])
  have h6 : env "torch" = ImportOutcome.ok := h "torch" (by simp [capabilities])
  have h7 : env "transformers" = ImportOutcome.ok := h "transformers" (by simp [capabilities])
  have h8 : env "pytesseract" = ImportOutcome.ok := h "pytesseract" (by simp [capabilities])
  have h9 : env "cv2" = ImportOutcome.ok := h "cv2" (by simp [capabilities])
  simp [tryBody, runStmts, h0, h1, h2, h3, h4, h5, h6, h7, h8, h9,
    groupSuccessLines, readyLines, capabilities]

theorem capAt_0 : capAt 0 = "pandas" := rfl

theorem capAt_1 : capAt 1 = "numpy" := rfl

theorem capAt_2 : capAt 2 = "sklearn" := rfl

theorem capAt_3 : capAt 3 = "duckdb" := rfl

theorem capAt_4 : capAt 4 = "pymysql" := rfl

theorem capAt_5 : capAt 5 = "psycopg2" := rfl

theorem capAt_6 : capAt 6 = "torch" := rfl

theorem capAt_7 : capAt 7 = "transformers" := rfl

theorem capAt_8 : capAt 8 = "pytesseract" := rfl

theorem capAt_9 : capAt 9 = "cv2" := rfl

/-- If the imports at positions `0..i-1` succeed and the one at position `i`
raises, the `try` body prints exactly the success lines of the groups completed
before position `i`, attempts exactly the imports up to position `i`, and ends
with the exception of the import at position `i`. -/
theorem run_firstFail (env : Env) (i : Nat) (hi : i < 10)
    (hlt : ∀ j, j < i → env (capAt j) = ImportOutcome.ok)
    (hne : env (capAt i) ≠ ImportOutcome.ok) :
    runStmts env tryBody =
      ⟨groupSuccessLines.take (groupOf i), capabilities.take (i + 1),
        excOf (env (capAt i))⟩ := by
  interval_cases i
  · rcases h0 : env "pandas" with _ | m | m
    · exact absurd h0 hne
    · simp [tryBody, runStmts, h0, capAt_0, groupOf, groupSuccessLines,
        capabilities, excOf]
    · simp [tryBody, runStmts, h0, capAt_0, groupOf, groupSuccessLines,
        capabilities, excOf]
  · have h0 : env "pandas" = ImportOutcome.ok := hlt 0 (by omega)
    rcases h1 : env "numpy" with _ | m | m
    · exact absurd h1 hne
    · simp [tryBody, runStmts, h0, h1, capAt_1, groupOf, groupSuccessLines,
        capabilities, excOf]
    · simp [tryBody, runStmts, h0, h1, capAt_1, groupOf, groupSuccessLines,
        capabilities, excOf]
  · have h0 : env "pandas" = ImportOutcome.ok := hlt 0 (by omega)
    have h1 : env "numpy" = ImportOutcome.ok := hlt 1 (by omega)
    rcases h2 : env "sklearn" with _ | m | m
    · exact absurd h2 hne
    · simp [tryBody, runStmts, h0, h1, h2, capAt_2, groupOf, groupSuccessLines,
        capabilities, excOf]
    · simp [tryBody, runStmts, h0, h1, h2, capAt_2, groupOf, groupSuccessLines,
        capabilities, excOf]
  · have h0 : env "pandas" = ImportOutcome.ok := hlt 0 (by omega)
    have h1 : env "numpy" = ImportOutcome.ok := hlt 1 (by omega)
    have h2 : env "sklearn" = ImportOutcome.ok := hlt 2 (by omega)
    rcases h3 : env "duckdb" with _ | m | m
    · exact absurd h3 hne
    · simp [tryBody, runStmts, h0, h1, h2, h3, capAt_3, groupOf,
        groupSuccessLines, capabilities, excOf]
    · simp [tryBody, runStmts, h0, h1, h2, h3, capAt_3, groupOf,
        groupSuccessLines, capabilities, excOf]
  · have h0 : env "pandas" = ImportOutcome.ok := hlt 0 (by omega)
    have h1 : env "numpy" = ImportOutcome.ok := hlt 1 (by omega)
    have h2 : env "sklearn" = ImportOutcome.ok := hlt 2 (by omega)
    have h3 : env "duckdb" = ImportOutcome.ok := hlt 3 (by omega)
    rcases h4 : env "pymysql" with _ | m | m
    · exact absurd h4 hne
    · simp [tryBody, runStmts, h0, h1, h2, h3, h4, capAt_4, groupOf,
        groupSuccessLines, capabilities, excOf]
    · simp [tryBody, runStmts, h0, h1, h2, h3, h4, capAt_4, groupOf,
        groupSuccessLines, capabilities, excOf]
  · have h0 : env "pandas" = ImportOutcome.ok := hlt 0 (by omega)
    have h1 : env "numpy" = ImportOutcome.ok := hlt 1 (by omega)
    have h2 : env "sklearn" = ImportOutcome.ok := hlt 2 (by omega)
    have h3 : env "duckdb" = ImportOutcome.ok := hlt 3 (by omega)
    have h4 : env "pymysql" = ImportOutcome.ok := hlt 4 (by omega)
    rcases h5 : env "psycopg2" with _ | m | m
    · exact absurd h5 hne
    · simp [tryBody, runStmts, h0, h1, h2, h3, h4, h5, capAt_5, groupOf,
        groupSuccessLines, capabilities, excOf]
    · simp [tryBody, runStmts, h0, h1, h2, h3, h4, h5, capAt_5, groupOf,
        groupSuccessLines, capabilities, excOf]
  · have h0 : env "pandas" = ImportOutcome.ok := hlt 0 (by omega)
    have h1 : env "numpy" = ImportOutcome.ok := hlt 1 (by omega)
    have h2 : env "sklearn" = ImportOutcome.ok := hlt 2 (by omega)
    have h3 : env "duckdb" = ImportOutcome.ok := hlt 3 (by omega)
    have h4 : env "pymysql" = ImportOutcome.ok := hlt 4 (by omega)
    have h5 : env "psycopg2" = ImportOutcome.ok := hlt 5 (by omega)
    rcases h6 : env "torch" with _ | m | m
    · exact absurd h6 hne
    · simp [tryBody, runStmts, h0, h1, h2, h3, h4, h5, h6, capAt_6, groupOf,
        groupSuccessLines, capabilities, excOf]
    · simp [tryBody, runStmts, h0, h1, h2, h3, h4, h5, h6, capAt_6, groupOf,
        groupSuccessLines, capabilities, excOf]
  · have h0 : env "pandas" = ImportOutcome.ok := hlt 0 (by omega)
    have h1 : env "numpy" = ImportOutcome.ok := hlt 1 (by omega)
    have h2 : env "sklearn" = ImportOutcome.ok := hlt 2 (by omega)
    have h3 : env "duckdb" = ImportOutcome.ok := hlt 3 (by omega)
    have h4 : env "pymysql" = ImportOutcome.ok := hlt 4 (by omega)
    have h5 : env "psycopg2" = ImportOutcome.ok := hlt 5 (by omega)
    have h6 : env "torch" = ImportOutcome.ok := hlt 6 (by omega)
    rcases h7 : env "transformers" with _ | m | m
    · exact absurd h7 hne
    · simp [tryBody, runStmts, h0, h1, h2, h3, h4, h5, h6, h7, capAt_7,
        groupOf, groupSuccessLines, capabilities, excOf]
    · simp [tryBody, runStmts, h0, h1, h2, h3, h4, h5, h6, h7, capAt_7,
        groupOf, groupSuccessLines, capabilities, excOf]
  · have h0 : env "pandas" = ImportOutcome.ok := hlt 0 (by omega)
    have h1 : env "numpy" = ImportOutcome.ok := hlt 1 (by omega)
    have h2 : env "sklearn" = ImportOutcome.ok := hlt 2 (by omega)
    have h3 : env "duckdb" = ImportOutcome.ok := hlt 3 (by omega)
    have h4 : env "pymysql" = ImportOutcome.ok := hlt 4 (by omega)
    have h5 : env "psycopg2" = ImportOutcome.ok := hlt 5 (by omega)
    have h6 : env "torch" = ImportOutcome.ok := hlt 6 (by omega)
    have h7 : env "transformers" = ImportOutcome.ok := hlt 7 (by omega)
    rcases h8 : env "pytesseract" with _ | m | m
    · exact absurd h8 hne
    · simp [tryBody, runStmts, h0, h1, h2, h3, h4, h5, h6, h7, h8, capAt_8,
        groupOf, groupSuccessLines, capabilities, excOf]
    · simp [tryBody, runStmts, h0, h1, h2, h3, h4, h5, h6, h7, h8, capAt_8,
        groupOf, groupSuccessLines, capabilities, excOf]
  · have h0 : env "pandas" = ImportOutcome.ok := hlt 0 (by omega)
    have h1 : env "numpy" = ImportOutcome.ok := hlt 1 (by omega)
    have h2 : env "sklearn" = ImportOutcome.ok := hlt 2 (by omega)
    have h3 : env "duckdb" = ImportOutcome.ok := hlt 3 (by omega)
    have h4 : env "pymysql" = ImportOutcome.ok := hlt 4 (by omega)
    have h5 : env "psycopg2" = ImportOutcome.ok := hlt 5 (by omega)
    have h6 : env "torch" = ImportOutcome.ok := hlt 6 (by omega)
    have h7 : env "transformers" = ImportOutcome.ok := hlt 7 (by omega)
    have h8 : env "pytesseract" = ImportOutcome.ok := hlt 8 (by omega)
    rcases h9 : env "cv2" with _ | m | m
    · exact absurd h9 hne
    · simp [tryBody, runStmts, h0, h1, h2, h3, h4, h5, h6, h7, h8, h9, capAt_9,
        groupOf, groupSuccessLines, capabilities, excOf]
    · simp [tryBody, runStmts, h0, h1, h2, h3, h4, h5, h6, h7, h8, h9, capAt_9,
        groupOf, groupSuccessLines, capabilities, excOf]

/-- On a fully successful run, `test_ml_stack` prints the four group lines and
the ready lines, attempts all ten imports, and raises nothing. -/
theorem test_allOk (env : Env) (h : ∀ c ∈ capabilities, env c = ImportOutcome.ok) :
    test_ml_stack env = ⟨groupSuccessLines ++ readyLines, capabilities, none⟩ := by
  simp [test_ml_stack, run_allOk env h]

/-- When the first failing import raises an `ImportError`, the handler catches
it: output is the completed-group lines plus one failure line, nothing raised. -/
theorem test_firstFail_importError (env : Env) (i : Nat) (m : String) (hi : i < 10)
    (hlt : ∀ j, j < i → env (capAt j) = ImportOutcome.ok)
    (hf : env (capAt i) = ImportOutcome.importError m) :
    test_ml_stack env =
      ⟨groupSuccessLines.take (groupOf i) ++ [failLine m],
        capabilities.take (i + 1), none⟩ := by
  have hr := run_firstFail env i hi hlt (by simp [hf])
  rw [hf] at hr
  simp [test_ml_stack, hr, excOf]

/-- When the first failing import raises an exception that is not an
`ImportError`, the handler does not fire: no failure line, exception raised. -/
theorem test_firstFail_otherError (env : Env) (i : Nat) (m : String) (hi : i < 10)
    (hlt : ∀ j, j < i → env (capAt j) = ImportOutcome.ok)
    (hf : env (capAt i) = ImportOutcome.otherError m) :
    test_ml_stack env =
      ⟨groupSuccessLines.take (groupOf i), capabilities.take (i + 1),
        some (Exc.otherError m)⟩ := by
  have hr := run_firstFail env i hi hlt (by simp [hf])
  rw [hf] at hr
  simp [test_ml_stack, hr, excOf]

/-- Every position `0..9` of the import sequence is one of the ten capabilities. -/
theorem capAt_mem (i : Nat) (hi : i < 10) : capAt i ∈ capabilities := by
  interval_cases i <;>
    simp [capAt_0, capAt_1, capAt_2, capAt_3, capAt_4, capAt_5, capAt_6,
      capAt_7, capAt_8, capAt_9, capabilities]

/-- Every environment either loads all ten capabilities or has a first
position at which the import does not succeed. -/
theorem allOk_or_firstFail (env : Env) :
    (∀ c ∈ capabilities, env c = ImportOutcome.ok) ∨
      ∃ i, i < 10 ∧ (∀ j, j < i → env (capAt j) = ImportOutcome.ok) ∧
        env (capAt i) ≠ ImportOutcome.ok := by
  by_cases h0 : env (capAt 0) = ImportOutcome.ok
  · by_cases h1 : env (capAt 1) = ImportOutcome.ok
    · by_cases h2 : env (capAt 2) = ImportOutcome.ok
      · by_cases h3 : env (capAt 3) = ImportOutcome.ok
        · by_cases h4 : env (capAt 4) = ImportOutcome.ok
          · by_cases h5 : env (capAt 5) = ImportOutcome.ok
            · by_cases h6 : env (capAt 6) = ImportOutcome.ok
              · by_cases h7 : env (capAt 7) = ImportOutcome.ok
                · by_cases h8 : env (capAt 8) = ImportOutcome.ok
                  · by_cases h9 : env (capAt 9) = ImportOutcome.ok
                    · refine Or.inl fun c hc => ?_
                      simp [capabilities] at hc
                      rcases hc with rfl | rfl | rfl | rfl | rfl | rfl | rfl | rfl | rfl | rfl
                      · exact h0
                      · exact h1
                      · exact h2
                      · exact h3
                      · exact h4
                      · exact h5
                      · exact h6
                      · exact h7
                      · exact h8
                      · exact h9
                    · exact Or.inr ⟨9, by omega,
                        fun j hj => by interval_cases j <;> assumption, h9⟩
                  · exact Or.inr ⟨8, by omega,
                      fun j hj => by interval_cases j <;> assumption, h8⟩
                · exact Or.inr ⟨7, by omega,
                    fun j hj => by interval_cases j <;> assumption, h7⟩
              · exact Or.inr ⟨6, by omega,
                  fun j hj => by interval_cases j <;> assumption, h6⟩
            · exact Or.inr ⟨5, by omega,
                fun j hj => by interval_cases j <;> assumption, h5⟩
          · exact Or.inr ⟨4, by omega,
              fun j hj => by interval_cases j <;> assumption, h4⟩
        · exact Or.inr ⟨3, by omega,
            fun j hj => by interval_cases j <;> assumption, h3⟩
      · exact Or.inr ⟨2, by omega,
          fun j hj => by interval_cases j <;> assumption, h2⟩
    · exact Or.inr ⟨1, by omega,
        fun j hj => by interval_cases j; assumption, h1⟩
  · exact Or.inr ⟨0, by omega, fun j hj => absurd hj (by omega), h0⟩

/-- Executing a statement list only consults the environment at the names that
the list imports. -/
theorem runStmts_congr (env env2 : Env) :
    ∀ stmts : List Stmt, (∀ n, Stmt.imp n ∈ stmts → env n = env2 n) →
      runStmts env stmts = runStmts env2 stmts := by
  intro stmts
  induction stmts with
  | nil => intro _; rfl
  | cons s rest ih =>
      intro h
      cases s with
      | print l =>
          have hrest := ih fun n2 hn2 => h n2 (List.mem_cons_of_mem _ hn2)
          simp [runStmts, hrest]
      | imp n =>
          have hn := h n (List.mem_cons_self _ _)
          have hrest := ih fun n2 hn2 => h n2 (List.mem_cons_of_mem _ hn2)
          unfold runStmts
          simp only [hn, hrest]

theorem importsOf_tryBody : importsOf tryBody = capabilities := rfl

/-- The imports attempted by a run are always an initial segment of the
statement list's imports, in order. -/
theorem attempted_take (env : Env) :
    ∀ stmts : List Stmt,
      ∃ k, (runStmts env stmts).attempted = (importsOf stmts).take k := by
  intro stmts
  induction stmts with
  | nil => exact ⟨0, rfl⟩
  | cons s rest ih =>
      cases s with
      | print l =>
          rcases ih with ⟨k, hk⟩
          exact ⟨k, by simp [runStmts, importsOf, hk]⟩
      | imp n =>
          rcases ih with ⟨k, hk⟩
          rcases h : env n with _ | m | m
          · exact ⟨k + 1, by simp [runStmts, importsOf, h, hk]⟩
          · exact ⟨1, by simp [runStmts, importsOf, h]⟩
          · exact ⟨1, by simp [runStmts, importsOf, h]⟩

/-- Every group-success line has `✅`, not `❌`, as its first character. -/
theorem startsCross_groupSuccessLines {l : String} (hl : l ∈ groupSuccessLines) :
    startsCross l = false := by
  simp [groupSuccessLines] at hl
  rcases hl with rfl | rfl | rfl | rfl <;> decide

/-- No ready/hint line has `❌` as its first character. -/
theorem startsCross_readyLines : ∀ l ∈ readyLines, startsCross l = false := by
  decide

/-- No ready/hint line is a group-success line. -/
theorem readyLines_not_groupLines : ∀ l ∈ readyLines, l ∉ groupSuccessLines := by
  decide

/-- A truncation of the group-success lines contains no failure line. -/
theorem countP_startsCross_take (k : Nat) :
    (groupSuccessLines.take k).countP startsCross = 0 :=
  List.countP_eq_zero.2 fun a ha => by
    simp [startsCross_groupSuccessLines (List.take_subset _ _ ha)]

/-- Output consisting of completed-group lines plus the handler's failure line
contains exactly one failure line. -/
theorem countP_startsCross_failOut (k : Nat) (m : String) :
    ((groupSuccessLines.take k) ++ [failLine m]).countP startsCross = 1 := by
  rw [List.countP_append, countP_startsCross_take]
  simp [List.countP_cons, startsCross_failLine]

/-- Truncating the group-success lines to `k ≤ 4` keeps `k` success lines. -/
theorem countP_startsCheck_take (k : Nat) (hk : k ≤ 4) :
    (groupSuccessLines.take k).countP startsCheck = k := by
  interval_cases k <;> decide

/-- The group index of any position is at most `3`. -/
theorem groupOf_le (i : Nat) : groupOf i ≤ 3 := by
  unfold groupOf
  split_ifs <;> omega

/-- Bounds on the first failing position implied by a group strictly before
its group being incomplete. -/
theorem group_lt_bound (g i : Nat) (hg : g < groupOf i) :
    (g = 0 → 4 ≤ i) ∧ (g = 1 → 6 ≤ i) ∧ (g = 2 → 8 ≤ i) ∧ g ≤ 2 := by
  unfold groupOf at hg
  split_ifs at hg <;> omega

/-- If all imports before position `i` succeed, every member of a group that
lies strictly before the group of position `i` loads successfully. -/
theorem group_member_ok (env : Env) (i : Nat)
    (hlt : ∀ j, j < i → env (capAt j) = ImportOutcome.ok)
    (g : Nat) (hg : g < groupOf i) :
    ∀ c ∈ groupMembers.getD g [], env c = ImportOutcome.ok := by
  intro c hc
  have hb := group_lt_bound g i hg
  have hg2 : g ≤ 2 := hb.2.2.2
  interval_cases g
  · have h4 : 4 ≤ i := hb.1 rfl
    simp [groupMembers] at hc
    rcases hc with rfl | rfl | rfl | rfl
    · exact hlt 0 (by omega)
    · exact hlt 1 (by omega)
    · exact hlt 2 (by omega)
    · exact hlt 3 (by omega)
  · have h6 : 6 ≤ i := hb.2.1 rfl
    simp [groupMembers] at hc
    rcases hc with rfl | rfl
    · exact hlt 4 (by omega)
    · exact hlt 5 (by omega)
  · have h8 : 8 ≤ i := hb.2.2.1 rfl
    simp [groupMembers] at hc
    rcases hc with rfl | rfl
    · exact hlt 6 (by omega)
    · exact hlt 7 (by omega)

/-- Each group's success line is among the group-success lines. -/
theorem groupLine_mem (g : Nat) (hg : g < 4) :
    groupSuccessLines.getD g "" ∈ groupSuccessLines := by
  interval_cases g <;> decide

/-- A group's success line occurs in a truncation of the success-line list
only if the truncation extends past that group. -/
theorem mem_take_groupLines (g k : Nat) (hg : g < 4)
    (h : groupSuccessLines.getD g "" ∈ groupSuccessLines.take k) : g < k := by
  by_contra hk
  push_neg at hk
  have hk3 : k < 4 := by omega
  interval_cases g <;> interval_cases k <;> first
    | omega
    | exact absurd h (by decide)

/-- Every member of every group is one of the ten capabilities. -/
theorem member_group_mem_capabilities {c : String} (g : Nat) (hg : g < 4)
    (hc : c ∈ groupMembers.getD g []) : c ∈ capabilities := by
  interval_cases g
  · simp [groupMembers] at hc
    rcases hc with rfl | rfl | rfl | rfl <;> simp [capabilities]
  · simp [groupMembers] at hc
    rcases hc with rfl | rfl <;> simp [capabilities]
  · simp [groupMembers] at hc
    rcases hc with rfl | rfl <;> simp [capabilities]
  · simp [groupMembers] at hc
    rcases hc with rfl | rfl <;> simp [capabilities]

/-- A name imported by the `try` body is one of the ten capabilities. -/
theorem imp_mem_capabilities {n : String} (hn : Stmt.imp n ∈ tryBody) :
    n ∈ capabilities := by
  simp [tryBody] at hn
  rcases hn with rfl | rfl | rfl | rfl | rfl | rfl | rfl | rfl | rfl | rfl <;>
    simp [capabilities]

/-- The imports the routine attempts are those of the `try`-body trace. -/
theorem test_attempted (env : Env) :
    (test_ml_stack env).attempted = (runStmts env tryBody).attempted := by
  unfold test_ml_stack
  split <;> rfl

/-- When the `ImportError` message has the form CPython produces for a module
that is not installed, the failure line contains the capability name. -/
theorem failLine_names_capability (i : Nat) (hi : i < 10) :
    ∃ s t, (failLine ("No module named \x27" ++ capAt i ++ "\x27")).data
      = s ++ (capAt i).data ++ t := by
  interval_cases i <;>
    exact ⟨("❌ Missing dependency: No module named \x27").data, "\x27".data,
      by decide⟩

/-- C1: if all ten probed capabilities are loadable, the routine prints
exactly the four group-success lines followed by the ready banner and the two
hint lines, in that fixed order, prints no failure line, and raises nothing. -/
theorem claim_allOk_output (env : Env)
    (h : ∀ c ∈ capabilities, env c = ImportOutcome.ok) :
    (test_ml_stack env).out = groupSuccessLines ++ readyLines ∧
    (test_ml_stack env).out.countP startsCheck = 4 ∧
    (test_ml_stack env).out.countP startsCross = 0 ∧
    (test_ml_stack env).raised = none := by
  rw [test_allOk env h]
  refine ⟨rfl, by decide, by decide, rfl⟩

/-- Witness for C1 at the environment where every import succeeds. -/
theorem claim_allOk_output_witness :
    (test_ml_stack allOkEnv).out = groupSuccessLines ++ readyLines ∧
    (test_ml_stack allOkEnv).out.countP startsCheck = 4 ∧
    (test_ml_stack allOkEnv).out.countP startsCross = 0 ∧
    (test_ml_stack allOkEnv).raised = none :=
  claim_allOk_output allOkEnv fun _ _ => rfl

set_option maxRecDepth 8192 in
/-- C2 counterexample, in two parts.  First, a run whose first failing
capability (the deep-learning framework, position 6, group 3) raises a
non-`ImportError` exception prints no failure line at all, refuting `exactly
one failure line`.  Second, a run whose first failing capability (the
computer-vision library, position 9, group 4) raises an `ImportError` whose
message is a dynamic-loader complaint prints a failure line, but no line of
the output mentions the capability name, refuting `naming that capability`. -/
theorem claim_firstFail_output_cex :
    ((∀ j, j < 6 → torchBrokenEnv (capAt j) = ImportOutcome.ok) ∧
      torchBrokenEnv (capAt 6) ≠ ImportOutcome.ok ∧
      (test_ml_stack torchBrokenEnv).out.countP startsCross = 0) ∧
    ((∀ j, j < 9 → cv2BrokenEnv (capAt j) = ImportOutcome.ok) ∧
      cv2BrokenEnv (capAt 9) ≠ ImportOutcome.ok ∧
      (test_ml_stack cv2BrokenEnv).out.countP startsCross = 1 ∧
      ∀ l ∈ (test_ml_stack cv2BrokenEnv).out,
        ¬ (("cv2").data <:+: l.data)) :=
  ⟨⟨by decide, by decide, by decide⟩, ⟨by decide, by decide, by decide, by decide⟩⟩

/-- C2 (amended): when the first failing capability is at position `i`, the
routine prints the success lines of the groups completed before position `i`
only and attempts no import past position `i`; if the failure is an
`ImportError` it prints exactly one failure line after them, carrying the
exception message — a line that mentions the capability name whenever the
message does, as the standard missing-module message does — and if the
failure is any other exception it prints no failure line at all. -/
theorem claim_firstFail_output (env : Env) (i : Nat) (hi : i < 10)
    (hlt : ∀ j, j < i → env (capAt j) = ImportOutcome.ok) :
    (∀ m, env (capAt i) = ImportOutcome.importError m →
      (test_ml_stack env).out =
        groupSuccessLines.take (groupOf i) ++ [failLine m] ∧
      (test_ml_stack env).out.countP startsCross = 1 ∧
      (test_ml_stack env).attempted = capabilities.take (i + 1) ∧
      (∀ name : String, name.data <:+: m.data →
        name.data <:+: (failLine m).data) ∧
      (m = "No module named \x27" ++ capAt i ++ "\x27" →
        ∃ s t, (failLine m).data = s ++ (capAt i).data ++ t)) ∧
    (∀ m, env (capAt i) = ImportOutcome.otherError m →
      (test_ml_stack env).out = groupSuccessLines.take (groupOf i) ∧
      (test_ml_stack env).out.countP startsCross = 0 ∧
      (test_ml_stack env).attempted = capabilities.take (i + 1)) := by
  constructor
  · intro m hf
    rw [test_firstFail_importError env i m hi hlt hf]
    exact ⟨rfl, countP_startsCross_failOut _ m, rfl,
      fun name h => infix_failLine h,
      fun hm => hm ▸ failLine_names_capability i hi⟩
  · intro m hf
    rw [test_firstFail_otherError env i m hi hlt hf]
    exact ⟨rfl, countP_startsCross_take _, rfl⟩

/-- Witness for C2 (amended): the deep-learning framework (position 6,
group 3) is the first failing capability, with the standard message. -/
theorem claim_firstFail_output_witness :
    (test_ml_stack torchMissingEnv).out =
      groupSuccessLines.take (groupOf 6) ++
        [failLine "No module named \x27torch\x27"] ∧
    (test_ml_stack torchMissingEnv).out.countP startsCross = 1 ∧
    (test_ml_stack torchMissingEnv).attempted = capabilities.take 7 ∧
    (∀ name : String,
      name.data <:+: ("No module named \x27torch\x27" : String).data →
      name.data <:+: (failLine "No module named \x27torch\x27").data) ∧
    ("No module named \x27torch\x27" = "No module named \x27" ++ capAt 6 ++ "\x27" →
      ∃ s t, (failLine "No module named \x27torch\x27").data
        = s ++ (capAt 6).data ++ t) :=
  (claim_firstFail_output torchMissingEnv 6 (by omega)
      (fun j hj => by interval_cases j <;> rfl)).1
    "No module named \x27torch\x27" rfl

/-- C3 counterexample: an import that fails with an exception that is not an
`ImportError` (here an import-time `ValueError`) is not recovered:
`test_ml_stack` raises it to its caller. -/
theorem claim_never_raises_cex :
    (test_ml_stack crashEnv).raised = some (Exc.otherError "ValueError: boom") := rfl

/-- C3 (amended): as long as every failing load raises an `ImportError` (the
failure mode of a capability that is not installed), the routine never raises
an uncaught error to its caller; a load failing with any other exception class
escapes instead. -/
theorem claim_never_raises_amended (env : Env)
    (h : ∀ c ∈ capabilities, ∀ m, env c ≠ ImportOutcome.otherError m) :
    (test_ml_stack env).raised = none := by
  rcases allOk_or_firstFail env with hok | ⟨i, hi, hlt, hne⟩
  · rw [test_allOk env hok]
  · rcases hf : env (capAt i) with _ | m | m
    · exact absurd hf hne
    · rw [test_firstFail_importError env i m hi hlt hf]
    · exact absurd hf (h _ (capAt_mem i hi) m)

/-- Witness for C3 (amended) at an environment where every import raises an
`ImportError`. -/
theorem claim_never_raises_amended_witness :
    (test_ml_stack (fun _ => ImportOutcome.importError "nope")).raised = none :=
  claim_never_raises_amended (fun _ => ImportOutcome.importError "nope")
    (by simp)

/-- C4 counterexample: a fully successful run emits four group-success
markers, one per commented group, not one marker per three groups as the
claim's grouping (data-science, database, ML/OCR) would give. -/
theorem claim_three_groups_cex :
    (test_ml_stack allOkEnv).out.countP startsCheck = 4 ∧
    (test_ml_stack allOkEnv).out.countP startsCheck ≠ 3 :=
  ⟨by decide, by decide⟩

/-- C4 (amended): the verifier attempts, in sequence, to load four named
groups of capabilities (data-science stack, database connectors, ML
frameworks, OCR tools), printing one success marker after each group that
fully loads: a fully successful run emits exactly these four group markers. -/
theorem claim_group_markers (env : Env)
    (h : ∀ c ∈ capabilities, env c = ImportOutcome.ok) :
    (test_ml_stack env).out.filter startsCheck = groupSuccessLines ∧
    groupSuccessLines.length = 4 ∧
    groupMembers.length = 4 := by
  rw [test_allOk env h]
  exact ⟨by decide, rfl, rfl⟩

/-- Witness for C4 (amended) at the environment where every import succeeds. -/
theorem claim_group_markers_witness :
    (test_ml_stack allOkEnv).out.filter startsCheck = groupSuccessLines ∧
    groupSuccessLines.length = 4 ∧
    groupMembers.length = 4 :=
  claim_group_markers allOkEnv fun _ _ => rfl

set_option maxRecDepth 8192 in
/-- C5 counterexample, in two parts.  First, a load failure that raises a
non-`ImportError` exception produces no diagnostic line at all, so a failing
load does not always produce exactly one diagnostic line.  Second, a load
that fails with an `ImportError` whose message is a dynamic-loader complaint
produces the one diagnostic line, but no line of the output mentions the
capability name, so the diagnostic line does not always name the unavailable
capability. -/
theorem claim_one_diag_line_cex :
    (torchBrokenEnv "torch" ≠ ImportOutcome.ok ∧
      (test_ml_stack torchBrokenEnv).out.countP startsCross = 0) ∧
    (psycopgBrokenEnv "psycopg2" ≠ ImportOutcome.ok ∧
      (test_ml_stack psycopgBrokenEnv).out.countP startsCross = 1 ∧
      ∀ l ∈ (test_ml_stack psycopgBrokenEnv).out,
        ¬ (("psycopg2").data <:+: l.data)) :=
  ⟨⟨by decide, by decide⟩, ⟨by decide, by decide, by decide⟩⟩

/-- C5 (amended): when a load fails with an `ImportError`, the user-visible
failure output is exactly one diagnostic line — the last line printed — the
fixed tag followed by the exception message, with nothing else printed or
raised; the line mentions the unavailable capability whenever the exception
message does, as the standard missing-module message does.  When a load fails
with any other exception class, no diagnostic line is printed at all. -/
theorem claim_one_diag_line_amended (env : Env) (i : Nat) (hi : i < 10)
    (hlt : ∀ j, j < i → env (capAt j) = ImportOutcome.ok) :
    (∀ m, env (capAt i) = ImportOutcome.importError m →
      (test_ml_stack env).out.filter startsCross = [failLine m] ∧
      (test_ml_stack env).out.getLast? = some (failLine m) ∧
      (test_ml_stack env).raised = none ∧
      (∀ name : String, name.data <:+: m.data →
        name.data <:+: (failLine m).data) ∧
      (m = "No module named \x27" ++ capAt i ++ "\x27" →
        ∃ s t, (failLine m).data = s ++ (capAt i).data ++ t)) ∧
    (∀ m, env (capAt i) = ImportOutcome.otherError m →
      (test_ml_stack env).out.filter startsCross = []) := by
  constructor
  · intro m hf
    rw [test_firstFail_importError env i m hi hlt hf]
    refine ⟨?_, ?_, rfl, fun name h => infix_failLine h,
      fun hm => hm ▸ failLine_names_capability i hi⟩
    · rw [List.filter_append]
      have hz : (groupSuccessLines.take (groupOf i)).filter startsCross = [] :=
        List.filter_eq_nil_iff.2 fun a ha => by
          simp [startsCross_groupSuccessLines (List.take_subset _ _ ha)]
      rw [hz]
      simp [List.filter_cons, startsCross_failLine]
    · rw [List.getLast?_concat]
  · intro m hf
    rw [test_firstFail_otherError env i m hi hlt hf]
    exact List.filter_eq_nil_iff.2 fun a ha => by
      simp [startsCross_groupSuccessLines (List.take_subset _ _ ha)]

/-- Witness for C5 (amended): the deep-learning framework is missing with the
standard CPython message. -/
theorem claim_one_diag_line_amended_witness :
    (test_ml_stack torchMissingEnv).out.filter startsCross
      = [failLine "No module named \x27torch\x27"] ∧
    (test_ml_stack torchMissingEnv).out.getLast?
      = some (failLine "No module named \x27torch\x27") ∧
    (test_ml_stack torchMissingEnv).raised = none ∧
    (∀ name : String,
      name.data <:+: ("No module named \x27torch\x27" : String).data →
      name.data <:+: (failLine "No module named \x27torch\x27").data) ∧
    ("No module named \x27torch\x27" = "No module named \x27" ++ capAt 6 ++ "\x27" →
      ∃ s t, (failLine "No module named \x27torch\x27").data
        = s ++ (capAt 6).data ++ t) :=
  (claim_one_diag_line_amended torchMissingEnv 6 (by omega)
      (fun j hj => by interval_cases j <;> rfl)).1
    "No module named \x27torch\x27" rfl

/-- C6: on every run the attempted imports are an initial segment of the ten
capabilities in their listed order, and when the first failure is at position
`i` the routine attempts exactly the imports up to `i` and reports success
markers exactly for the groups completed before `i` — nothing of any later
group runs or is reported. -/
theorem claim_group_order_invariant (env : Env) :
    (∃ k, (test_ml_stack env).attempted = capabilities.take k) ∧
    (∀ i, i < 10 → (∀ j, j < i → env (capAt j) = ImportOutcome.ok) →
      env (capAt i) ≠ ImportOutcome.ok →
      (test_ml_stack env).attempted = capabilities.take (i + 1) ∧
      (test_ml_stack env).out.countP startsCheck = groupOf i) := by
  constructor
  · rcases attempted_take env tryBody with ⟨k, hk⟩
    rw [importsOf_tryBody] at hk
    exact ⟨k, by rw [test_attempted]; exact hk⟩
  · intro i hi hlt hne
    rcases hf : env (capAt i) with _ | m | m
    · exact absurd hf hne
    · rw [test_firstFail_importError env i m hi hlt hf]
      refine ⟨rfl, ?_⟩
      rw [List.countP_append,
        countP_startsCheck_take (groupOf i) (by have := groupOf_le i; omega)]
      simp [List.countP_cons, startsCheck_failLine]
    · rw [test_firstFail_otherError env i m hi hlt hf]
      exact ⟨rfl, countP_startsCheck_take (groupOf i)
        (by have := groupOf_le i; omega)⟩

/-- Witness for C6: the tabular-data library fails first, so only the first
module load is attempted and no group marker is printed. -/
theorem claim_group_order_invariant_witness :
    (test_ml_stack pandasMissingEnv).attempted = capabilities.take 1 ∧
    (test_ml_stack pandasMissingEnv).out.countP startsCheck = groupOf 0 :=
  (claim_group_order_invariant pandasMissingEnv).2 0 (by omega)
    (fun j hj => absurd hj (by omega)) (by decide)

/-- C7: the probed capabilities and their grouping are fixed at authoring
time: the data-science group has exactly the four members of the source, the
four groups together probe exactly the ten capabilities, and a group's single
success line appears in the output only when every member of that group
loads. -/
theorem claim_fixed_grouping (env : Env) :
    groupMembers.map List.length = [4, 2, 2, 2] ∧
    groupMembers.flatten = capabilities ∧
    capabilities.length = 10 ∧
    groupSuccessLines.length = groupMembers.length ∧
    (∀ g, g < 4 → groupSuccessLines.getD g "" ∈ (test_ml_stack env).out →
      ∀ c ∈ groupMembers.getD g [], env c = ImportOutcome.ok) := by
  refine ⟨rfl, rfl, rfl, rfl, ?_⟩
  intro g hg hmem c hc
  rcases allOk_or_firstFail env with hok | ⟨i, hi, hlt, hne⟩
  · exact hok c (member_group_mem_capabilities g hg hc)
  · rcases hf : env (capAt i) with _ | m | m
    · exact absurd hf hne
    · rw [test_firstFail_importError env i m hi hlt hf] at hmem
      simp only [List.mem_append, List.mem_singleton] at hmem
      rcases hmem with hmem | hmem
      · exact group_member_ok env i hlt g (mem_take_groupLines g _ hg hmem) c hc
      · exact absurd hmem (ne_failLine_of_headCheck _
          (startsCross_groupSuccessLines (groupLine_mem g hg)) m)
    · rw [test_firstFail_otherError env i m hi hlt hf] at hmem
      exact group_member_ok env i hlt g (mem_take_groupLines g _ hg hmem) c hc

/-- Witness for C7: on a fully successful run, the first group's success line
is printed and its member `pandas` indeed loaded. -/
theorem claim_fixed_grouping_witness :
    allOkEnv "pandas" = ImportOutcome.ok :=
  (claim_fixed_grouping allOkEnv).2.2.2.2 0 (by omega) (by decide) "pandas"
    (by decide)

/-- C8: the handler catches only `ImportError`; if an attempted load raises
an exception of any other class, it propagates uncaught out of
`test_ml_stack` to its caller. -/
theorem claim_otherError_propagates (env : Env) (i : Nat) (m : String)
    (hi : i < 10)
    (hlt : ∀ j, j < i → env (capAt j) = ImportOutcome.ok)
    (hf : env (capAt i) = ImportOutcome.otherError m) :
    (test_ml_stack env).raised = some (Exc.otherError m) := by
  rw [test_firstFail_otherError env i m hi hlt hf]

/-- Witness for C8: an import-time `ValueError` in the very first import
escapes to the caller. -/
theorem claim_otherError_propagates_witness :
    (test_ml_stack crashEnv).raised
      = some (Exc.otherError "ValueError: boom") :=
  claim_otherError_propagates crashEnv 0 "ValueError: boom" (by omega)
    (fun j hj => absurd hj (by omega)) rfl

/-- C9 counterexample: when the first import raises a non-`ImportError`
exception, the output contains neither the ready banner nor any failure line,
so it is not the case that every run shows one of the two. -/
theorem claim_banner_or_fail_cex :
    readyLines.getD 0 "" ∉ (test_ml_stack crashEnv).out ∧
    (test_ml_stack crashEnv).out.countP startsCross = 0 :=
  ⟨by decide, by decide⟩

/-- C9 (amended): the ready banner and a failure line never both appear; at
most one failure line is ever printed; the banner and the hint lines appear
only when all four group-success lines are printed; and on every run that
completes without an uncaught exception, the banner or one failure line
appears. -/
theorem claim_output_shape (env : Env) :
    ¬ (readyLines.getD 0 "" ∈ (test_ml_stack env).out ∧
        (test_ml_stack env).out.countP startsCross = 1) ∧
    (test_ml_stack env).out.countP startsCross ≤ 1 ∧
    (∀ l ∈ readyLines, l ∈ (test_ml_stack env).out →
      (test_ml_stack env).out.countP startsCheck = 4) ∧
    ((test_ml_stack env).raised = none →
      readyLines.getD 0 "" ∈ (test_ml_stack env).out ∨
      (test_ml_stack env).out.countP startsCross = 1) := by
  rcases allOk_or_firstFail env with hok | ⟨i, hi, hlt, hne⟩
  · rw [test_allOk env hok]
    exact ⟨by decide, by decide, fun _ _ _ => by decide,
      fun _ => Or.inl (by decide)⟩
  · rcases hf : env (capAt i) with _ | m | m
    · exact absurd hf hne
    · have ht := test_firstFail_importError env i m hi hlt hf
      have hout : (test_ml_stack env).out
          = groupSuccessLines.take (groupOf i) ++ [failLine m] := by rw [ht]
      have hraised : (test_ml_stack env).raised = none := by rw [ht]
      rw [hout, hraised]
      refine ⟨?_, ?_, ?_, fun _ => Or.inr (countP_startsCross_failOut _ m)⟩
      · rintro ⟨hb, -⟩
        simp only [List.mem_append, List.mem_singleton] at hb
        rcases hb with hb | hb
        · exact readyLines_not_groupLines _ (by decide)
            (List.take_subset _ _ hb)
        · exact ne_failLine_of_headCheck _
            (startsCross_readyLines _ (by decide)) m hb
      · rw [countP_startsCross_failOut]
      · intro l hl hmem
        simp only [List.mem_append, List.mem_singleton] at hmem
        rcases hmem with hmem | hmem
        · exact absurd (List.take_subset _ _ hmem)
            (readyLines_not_groupLines l hl)
        · exact absurd hmem
            (ne_failLine_of_headCheck _ (startsCross_readyLines l hl) m)
    · have ht := test_firstFail_otherError env i m hi hlt hf
      have hout : (test_ml_stack env).out
          = groupSuccessLines.take (groupOf i) := by rw [ht]
      have hraised : (test_ml_stack env).raised
          = some (Exc.otherError m) := by rw [ht]
      rw [hout, hraised]
      refine ⟨?_, ?_, ?_, fun hr => nomatch hr⟩
      · rintro ⟨-, hcnt⟩
        rw [countP_startsCross_take] at hcnt
        exact absurd hcnt (by decide)
      · rw [countP_startsCross_take]
        omega
      · intro l hl hmem
        exact absurd (List.take_subset _ _ hmem)
          (readyLines_not_groupLines l hl)

/-- Witness for C9 (amended), applied on a fully successful run. -/
theorem claim_output_shape_witness :
    readyLines.getD 0 "" ∈ (test_ml_stack allOkEnv).out ∨
    (test_ml_stack allOkEnv).out.countP startsCross = 1 :=
  (claim_output_shape allOkEnv).2.2.2 (by decide)

/-- C10: the routine is deterministic with respect to the environment: two
environments in which every probed import has the same outcome produce
identical printed output, attempted imports, and raising behavior. -/
theorem claim_deterministic (env env2 : Env)
    (h : ∀ c ∈ capabilities, env c = env2 c) :
    test_ml_stack env = test_ml_stack env2 := by
  have hr := runStmts_congr env env2 tryBody
    fun n hn => h n (imp_mem_capabilities hn)
  simp [test_ml_stack, hr]

/-- Witness for C10: breaking a module the script never imports does not
change anything observable. -/
theorem claim_deterministic_witness :
    test_ml_stack allOkEnv = test_ml_stack flaskBrokenEnv :=
  claim_deterministic allOkEnv flaskBrokenEnv (by decide)

end StartML
